import Mathlib

/-!
# node-memcache: the `Connection` class of `src/binding.cc`

A shallow embedding of the binding's `Connection` object: the pending result
slot `mval_`, the last status code `rc`, the two libev watchers and the
libmemcached handle `memc_`.  Methods are pure functions on that state.

* Calls into libmemcached, libev and V8 are not code of the binding.  What such a
  call answers is a parameter of the method that makes it (a status code, a
  returned buffer, a hash value), so every theorem holds for every answer the
  library may give.
* What the servers hold is the `cache`: `_Set` hands its key and value to
  `memcached_set`, which stores them there, and `memcached_get` answers from it.
* A method that emits notifications returns them, in order, next to the new state.
* A method that would read outside `memc_.servers`, or read the slot through a
  member that holds no determinate value, has no result (`none`).
-/

namespace Memcache

/-! ## Status codes, commands and the pending slot -/

/-- The status code type of libmemcached. -/
abbrev memcached_return_t := Int

/-- The one status code that denotes success. -/
def MEMCACHED_SUCCESS : memcached_return_t := 0

/-- The storage commands multiplexed by `Connection::_Cmd`. -/
inductive _cmd
  | _ADD
  | _REPLACE
  | _PREPEND
  | _APPEND
  deriving DecidableEq, Repr

/-- The tag of the pending slot.  `MVAL_NONE` is the value `(mval_type)0` that the
constructor and `Event` store; the source names only the three others. -/
inductive mval_type
  | MVAL_NONE
  | MVAL_STRING
  | MVAL_LONG
  | MVAL_BOOL
  deriving DecidableEq, Repr

/-- The union `u` of `mval`, as the member that was stored last.
A `char *` is `none` for NULL and otherwise the bytes of the buffer it points to
(the terminating zero byte that libmemcached appends is not part of the list). -/
inductive mval_u
  | c (p : Option (List Nat))
  | l (v : Nat)
  | b (v : Int)
  deriving DecidableEq, Repr

/-- Reading `u.c`: determinate only when a pointer was stored last. -/
def mval_u.get_c : mval_u → Option (Option (List Nat))
  | .c p => some p
  | _ => none

/-- Reading `u.l`: the stored integer; a stored NULL pointer reads as zero (all
members share the storage and NULL is the all-zero pattern). -/
def mval_u.get_l : mval_u → Option Nat
  | .l v => some v
  | .c none => some 0
  | _ => none

/-- Reading `u.b`: the stored int; a stored NULL pointer reads as zero. -/
def mval_u.get_b : mval_u → Option Int
  | .b v => some v
  | .c none => some 0
  | _ => none

/-- The pending slot `mval`. -/
structure mval where
  type : mval_type
  u : mval_u
  deriving DecidableEq, Repr

/-! ## V8 values and notifications -/

/-- The JavaScript values the binding receives and produces.  A string is its
UTF-8 bytes; a number is its integral value. -/
inductive Value
  | Undefined
  | Boolean (b : Bool)
  | Number (n : Int)
  | String (s : List Nat)
  | Error (message : String)
  | TypeError (message : String)
  deriving DecidableEq, Repr

/-- The persistent symbols naming the notifications. -/
inductive Symbol
  | ready_symbol
  | result_symbol
  | close_symbol
  | connect_symbol
  deriving DecidableEq, Repr

/-- One call `Emit(symbol, argc, argv)`. -/
structure Notification where
  symbol : Symbol
  argv : List Value
  deriving DecidableEq, Repr

/-- The constructor `String::New(const char *)`: the bytes before the first zero byte. -/
def String_New (data : List Nat) : List Nat :=
  data.takeWhile (fun ch => ch ≠ 0)

/-- Conversion of an unsigned 64-bit value to `int32_t`, the parameter type of
`Integer::New`. -/
def to_int32 (v : Nat) : Int :=
  if v % 2 ^ 32 < 2 ^ 31 then (v % 2 ^ 32 : Nat) else ((v % 2 ^ 32 : Nat) : Int) - 2 ^ 32

/-- The constructor `Integer::New(int32_t)` applied to a `uint64_t`. -/
def Integer_New (v : Nat) : Value :=
  Value.Number (to_int32 v)

/-- The constructor `Boolean::New(bool)` applied to an `int`. -/
def Boolean_New (v : Int) : Value :=
  Value.Boolean (decide (v ≠ 0))

/-- The test `IsString()`. -/
def Value.IsString : Value → Bool
  | .String _ => true
  | _ => false

/-- The test `IsNumber()`. -/
def Value.IsNumber : Value → Bool
  | .Number _ => true
  | _ => false

/-- The test `IsInt32()`: a number whose value is a 32-bit signed integer. -/
def Value.IsInt32 : Value → Bool
  | .Number n => decide (-(2 ^ 31) ≤ n ∧ n < 2 ^ 31)
  | _ => false

/-- The bytes of `String::Utf8Value(v->ToString())` for a string `v`; the binding
converts only values that passed `IsString()`. -/
def Value.Utf8Value : Value → List Nat
  | .String s => s
  | _ => []

/-- The result of `Int32Value()` for a number; the binding converts only values that
passed `IsInt32()`. -/
def Value.Int32Value : Value → Int
  | .Number n => to_int32 (n % 2 ^ 32).toNat
  | _ => 0

/-- The argument list of a call: `args[i]` is `Undefined` past `args.Length()`. -/
def Arguments_get (args : List Value) (i : Nat) : Value :=
  args.getD i Value.Undefined

/-- The exception thrown by `THROW_BAD_ARGS`. -/
def THROW_BAD_ARGS : Value :=
  Value.TypeError "Bad arguments"

/-! ## libev watchers -/

/-- The readiness bit `EV_READ`. -/
def EV_READ : Nat := 0x01

/-- The readiness bit `EV_WRITE`. -/
def EV_WRITE : Nat := 0x02

/-- The readiness bit `EV_ERROR`. -/
def EV_ERROR : Nat := 0x80000000

/-- An `ev_io` watcher: whether it is started, and its descriptor and interest set. -/
structure ev_io where
  active : Bool
  fd : Int
  events : Nat
  deriving DecidableEq, Repr

/-- The call `ev_init`: the watcher is marked inactive. -/
def ev_init (w : ev_io) : ev_io :=
  { w with active := false }

/-- The call `ev_io_set`. -/
def ev_io_set (w : ev_io) (fd : Int) (events : Nat) : ev_io :=
  { w with fd := fd, events := events }

/-- The call `ev_io_start`. -/
def ev_io_start (w : ev_io) : ev_io :=
  { w with active := true }

/-- The call `ev_io_stop`; stopping a stopped watcher changes nothing. -/
def ev_io_stop (w : ev_io) : ev_io :=
  { w with active := false }

/-! ## The libmemcached handle -/

/-- One entry of `memc_.servers`; `fd` is `-1` while the socket is closed. -/
structure memcached_server_st where
  hostname : List Nat
  port : Int
  fd : Int
  deriving DecidableEq, Repr

/-- The part of `memcached_st` that the binding reads or sets. -/
structure memcached_st where
  servers : List memcached_server_st
  no_block : Bool
  distribution : Nat
  deriving DecidableEq, Repr

/-- The field `number_of_hosts`. -/
def memcached_st.number_of_hosts (memc : memcached_st) : Nat :=
  memc.servers.length

/-- The handle after `memcached_create`. -/
def memcached_create : memcached_st :=
  { servers := [], no_block := false, distribution := 0 }

/-- The call `memcached_server_add` with status `rc`: on success the server is
appended with a closed socket, otherwise the list is left as it was. -/
def memcached_server_add (memc : memcached_st) (hostname : List Nat) (port : Int)
    (rc : memcached_return_t) : memcached_st :=
  if rc = MEMCACHED_SUCCESS then
    { memc with servers := memc.servers ++ [{ hostname := hostname, port := port, fd := -1 }] }
  else memc

/-- What one call of `memcached_version` answers: its status and, for the server at
each index, the descriptor that connecting it yields (`-1` when the connect fails). -/
structure version_response where
  rc : memcached_return_t
  fd : Nat → Int

/-- The call `memcached_version`: every server whose socket is closed is connected;
open sockets are kept. -/
def memcached_version (memc : memcached_st) (r : version_response) : memcached_st :=
  { memc with
    servers := memc.servers.enum.map
      (fun p => if p.2.fd = -1 then { p.2 with fd := r.fd p.1 } else p.2) }

/-- The element `memc_.servers[server]` for an `int` index; none outside the array. -/
def servers_at (memc : memcached_st) (server : Int) : Option memcached_server_st :=
  if server < 0 then none else memc.servers.get? server.toNat

/-! ## The connection -/

/-- The data members of `Connection`. -/
structure Connection where
  memc_ : memcached_st
  read_watcher_ : ev_io
  write_watcher_ : ev_io
  mval_ : mval
  rc : memcached_return_t
  deriving DecidableEq, Repr

/-- What libmemcached answers inside `memcached_attach_fd`: the server index computed
by `memcached_generate_hash`, and the answer of the `memcached_version` call made
when the selected socket is closed. -/
structure attach_response where
  hash : Nat
  version : version_response

/-- What `memcached_get` answers: a buffer (status `MEMCACHED_SUCCESS`), or NULL
together with a status.  NULL with `MEMCACHED_SUCCESS` is what libmemcached
answers for a stored value of length zero. -/
inductive get_response
  | value (buf : List Nat)
  | null (rc : memcached_return_t)
  deriving DecidableEq, Repr

/-- The pointer returned by `memcached_get`. -/
def get_response.returned : get_response → Option (List Nat)
  | .value buf => some buf
  | .null _ => none

/-- The status stored through the `&rc` argument of `memcached_get`. -/
def get_response.rc : get_response → memcached_return_t
  | .value _ => MEMCACHED_SUCCESS
  | .null rc => rc

/-- What `memcached_increment` and `memcached_decrement` answer: the status and the
`uint64_t` written through `&value`. -/
structure counter_response where
  rc : memcached_return_t
  value : Nat
  deriving DecidableEq, Repr

/-- What the servers behind `memc_` hold, as far as `set` and `get` reach it: the bytes
stored under each key, the entry stored last first.  Expiry is not represented. -/
abbrev cache := List (List Nat × List Nat)

/-- The status `MEMCACHED_NOTFOUND`. -/
def MEMCACHED_NOTFOUND : memcached_return_t := 16

/-- The call `memcached_set(&memc_, key, key_len, value, value_len, expiration, 0)` with
status `rc`: on success the servers hold the `value_len` bytes of `value` under the
`key_len` bytes of `key`, otherwise what they held. -/
def memcached_set (w : cache) (key value : List Nat) (_expiration : Nat)
    (rc : memcached_return_t) : cache :=
  if rc = MEMCACHED_SUCCESS then (key, value) :: w else w

/-- The answer of `memcached_get(&memc_, key, key_len, ...)` when the servers are reached:
`MEMCACHED_NOTFOUND` with NULL for a key that holds nothing, a copy of the stored
bytes for a key that holds some, and NULL with `MEMCACHED_SUCCESS` for a key that
holds a value of length zero. -/
def memcached_get (w : cache) (key : List Nat) : get_response :=
  match w.lookup key with
  | none => get_response.null MEMCACHED_NOTFOUND
  | some stored =>
    if stored = [] then get_response.null MEMCACHED_SUCCESS else get_response.value stored

namespace Connection

/-- The constructor `Connection()`, run on the raw storage of the object: the
union `u` and the watchers' descriptors are left as they were. -/
def new (raw : Connection) : Connection :=
  { memc_ := memcached_create
    rc := -1
    mval_ := { raw.mval_ with type := mval_type.MVAL_NONE }
    read_watcher_ := ev_init raw.read_watcher_
    write_watcher_ := ev_init raw.write_watcher_ }

/-- The method `bool AddServer(const char *hostname, int port)`; `add_rc` and `v` are the
answers of `memcached_server_add` and `memcached_version`. -/
def AddServer (c : Connection) (hostname : List Nat) (port : Int)
    (add_rc : memcached_return_t) (v : version_response) : Connection × Bool :=
  let c1 : Connection :=
    { c with rc := add_rc, memc_ := memcached_server_add c.memc_ hostname port add_rc }
  if add_rc ≠ MEMCACHED_SUCCESS then (c1, false)
  else
    let c2 : Connection := { c1 with memc_ := { c1.memc_ with no_block := true } }
    let c3 : Connection := { c2 with memc_ := memcached_version c2.memc_ v, rc := v.rc }
    if v.rc ≠ MEMCACHED_SUCCESS then (c3, false) else (c3, true)

/-- The method `memcached_attach_fd(key, key_len)`; `key` is `none` for NULL and
`key_len` is the length of the key. -/
def memcached_attach_fd (c : Connection) (key : Option (List Nat)) (a : attach_response) :
    Option Connection :=
  let server : Int :=
    if key = none ∨ key = some [] then (c.memc_.number_of_hosts : Int) - 1 else (a.hash : Int)
  match servers_at c.memc_ server with
  | none => none
  | some s =>
    let memc : memcached_st := if s.fd = -1 then memcached_version c.memc_ a.version else c.memc_
    match servers_at memc server with
    | none => none
    | some s1 =>
      let fd : Int := s1.fd
      some { c with
        memc_ := memc
        read_watcher_ := ev_io_set c.read_watcher_ fd EV_READ
        write_watcher_ := ev_io_start (ev_io_set c.write_watcher_ fd EV_WRITE) }

/-- The method `_Get(key, key_len)`. -/
def _Get (c : Connection) (key : List Nat) (a : attach_response) (r : get_response) :
    Option Connection :=
  (c.memcached_attach_fd (some key) a).map fun c1 =>
    let c2 : Connection := { c1 with mval_ := { c1.mval_ with u := mval_u.c r.returned }, rc := r.rc }
    if r.returned ≠ none then { c2 with mval_ := { c2.mval_ with type := mval_type.MVAL_STRING } }
    else c2

/-- The slot after `mval_.type = MVAL_BOOL; mval_.u.b = 1;`. -/
def store_true (c : Connection) : Connection :=
  { c with mval_ := { type := mval_type.MVAL_BOOL, u := mval_u.b 1 } }

/-- The slot after `mval_.type = MVAL_LONG; mval_.u.l = value;`. -/
def store_long (c : Connection) (value : Nat) : Connection :=
  { c with mval_ := { type := mval_type.MVAL_LONG, u := mval_u.l (value % 2 ^ 64) } }

/-- The method `_Set(key, key_len, value, value_len, expiration)`, run against the
servers holding `w`; `rc` is the status `memcached_set` answers.  The method hands
key, value and their lengths to `memcached_set`; the result is the connection and
what the servers hold afterwards. -/
def _Set (c : Connection) (w : cache) (key : List Nat) (value : List Nat) (expiration : Nat)
    (a : attach_response) (rc : memcached_return_t) : Option (Connection × cache) :=
  (c.memcached_attach_fd (some key) a).map fun c1 =>
    let w1 : cache := memcached_set w key value expiration rc
    let c2 : Connection := { c1 with rc := rc }
    (if rc = MEMCACHED_SUCCESS then c2.store_true else c2, w1)

/-- The method `_Incr(key, key_len, offset)`. -/
def _Incr (c : Connection) (key : List Nat) (_offset : Nat)
    (a : attach_response) (r : counter_response) : Option Connection :=
  (c.memcached_attach_fd (some key) a).map fun c1 =>
    let c2 : Connection := { c1 with rc := r.rc }
    if r.rc = MEMCACHED_SUCCESS then c2.store_long r.value else c2

/-- The method `_Decr(key, key_len, offset)`. -/
def _Decr (c : Connection) (key : List Nat) (_offset : Nat)
    (a : attach_response) (r : counter_response) : Option Connection :=
  (c.memcached_attach_fd (some key) a).map fun c1 =>
    let c2 : Connection := { c1 with rc := r.rc }
    if r.rc = MEMCACHED_SUCCESS then c2.store_long r.value else c2

/-- The method `_Cmd(cmd, key, key_len, value, value_len)`; `rc` is the answer of the
`memcached_add`, `memcached_replace`, `memcached_prepend` or `memcached_append`
call selected by `cmd`.  The method does not call `memcached_attach_fd`. -/
def _Cmd (c : Connection) (cmd : _cmd) (_key : List Nat) (_value : List Nat)
    (rc : memcached_return_t) : Connection :=
  let c1 : Connection :=
    match cmd with
    | _cmd._ADD => { c with rc := rc }
    | _cmd._REPLACE => { c with rc := rc }
    | _cmd._PREPEND => { c with rc := rc }
    | _cmd._APPEND => { c with rc := rc }
  if c1.rc = MEMCACHED_SUCCESS then c1.store_true else c1

/-- The method `_Cas(key, key_len, value, value_len, cas_arg)`. -/
def _Cas (c : Connection) (key : List Nat) (_value : List Nat) (_cas_arg : Nat)
    (a : attach_response) (rc : memcached_return_t) : Option Connection :=
  (c.memcached_attach_fd (some key) a).map fun c1 =>
    let c2 : Connection := { c1 with rc := rc }
    if rc = MEMCACHED_SUCCESS then c2.store_true else c2

/-- The method `_Remove(key, key_len, expiration)`. -/
def _Remove (c : Connection) (key : List Nat) (_expiration : Int)
    (a : attach_response) (rc : memcached_return_t) : Option Connection :=
  (c.memcached_attach_fd (some key) a).map fun c1 =>
    let c2 : Connection := { c1 with rc := rc }
    if rc = MEMCACHED_SUCCESS then c2.store_true else c2

/-- The method `_Flush(expiration)`: the watch is attached with a NULL key. -/
def _Flush (c : Connection) (_expiration : Int)
    (a : attach_response) (rc : memcached_return_t) : Option Connection :=
  (c.memcached_attach_fd none a).map fun c1 =>
    let c2 : Connection := { c1 with rc := rc }
    if rc = MEMCACHED_SUCCESS then c2.store_true else c2

/-- The method `Close(exception)`; `none` is the empty handle of the default argument. -/
def Close (c : Connection) (exception : Option Value) : Connection × List Notification :=
  let c1 : Connection :=
    { c with
      read_watcher_ := ev_io_stop c.read_watcher_
      write_watcher_ := ev_io_stop c.write_watcher_ }
  match exception with
  | none => (c1, [{ symbol := Symbol.close_symbol, argv := [] }])
  | some e => (c1, [{ symbol := Symbol.close_symbol, argv := [e] }])

/-- The method `ErrorMessage()`; `memcached_strerror` is the message table of the
library. -/
def ErrorMessage (memcached_strerror : memcached_return_t → String) (c : Connection) : String :=
  memcached_strerror c.rc

/-- The `switch (mval_.type)` of `Event`: the value to deliver and the state after the
selected case.  No result when the member read holds no determinate value or
when `String::New` is handed NULL. -/
def decode (memcached_strerror : memcached_return_t → String) (c : Connection) :
    Option (Value × Connection) :=
  match c.mval_.type with
  | mval_type.MVAL_STRING =>
    match c.mval_.u.get_c with
    | some (some buf) =>
      some (Value.String (String_New buf),
        { c with mval_ := { c.mval_ with type := mval_type.MVAL_NONE }, rc := -1 })
    | _ => none
  | mval_type.MVAL_LONG =>
    match c.mval_.u.get_l with
    | some v =>
      some (Integer_New v,
        { c with mval_ := { type := mval_type.MVAL_NONE, u := mval_u.l 0 }, rc := -1 })
    | none => none
  | mval_type.MVAL_BOOL =>
    match c.mval_.u.get_b with
    | some v =>
      some (Boolean_New v,
        { c with mval_ := { type := mval_type.MVAL_NONE, u := mval_u.b 0 }, rc := -1 })
    | none => none
  | mval_type.MVAL_NONE => some (Value.Error (memcached_strerror c.rc), c)

/-- The method `Event(revents)`. -/
def Event (memcached_strerror : memcached_return_t → String) (c : Connection) (revents : Nat) :
    Option (Connection × List Notification) :=
  if revents &&& EV_ERROR ≠ 0 then some (c.Close none)
  else if revents &&& EV_READ ≠ 0 then some (c, [])
  else if revents &&& EV_WRITE ≠ 0 then
    match decode memcached_strerror c with
    | none => none
    | some (args, c1) =>
      some ({ c1 with write_watcher_ := ev_io_stop c1.write_watcher_ },
        [{ symbol := Symbol.result_symbol, argv := [args] },
         { symbol := Symbol.ready_symbol, argv := [] }])
  else some (c, [])

end Connection

/-! ## The methods exported to JavaScript

The overloads taking `const Arguments &args`: argument checks, conversions and the
call of the method above. -/

/-- How a call from JavaScript ends: the connection, what was emitted during the
call, and the exception handed to `ThrowException` (none when the call returns
`Undefined()`). -/
structure Returned where
  conn : Connection
  emitted : List Notification
  thrown : Option Value
  deriving DecidableEq, Repr

/-- The exit `return THROW_BAD_ARGS;`, taken before the connection is unwrapped. -/
def bad_args (c : Connection) : Returned :=
  { conn := c, emitted := [], thrown := some THROW_BAD_ARGS }

/-- The exit `return Undefined();` after the method ran without emitting. -/
def undefined (c : Connection) : Returned :=
  { conn := c, emitted := [], thrown := none }

/-- The `uint32_t` obtained from `Int32Value()`. -/
def as_uint32 (v : Value) : Nat :=
  (v.Int32Value % 2 ^ 32).toNat

namespace Connection.Arguments

/-- The export `addServer`. -/
def AddServer (memcached_strerror : memcached_return_t → String) (c : Connection)
    (args : List Value) (add_rc : memcached_return_t) (v : version_response) : Returned :=
  if args.length < 2 || !(Arguments_get args 0).IsString || !(Arguments_get args 1).IsInt32 then
    bad_args c
  else
    let server_name := (Arguments_get args 0).Utf8Value
    let port := (Arguments_get args 1).Int32Value
    let r := c.AddServer server_name port add_rc v
    if !r.2 then
      { conn := r.1, emitted := [],
        thrown := some (Value.Error (r.1.ErrorMessage memcached_strerror)) }
    else
      { conn := r.1, emitted := [{ symbol := Symbol.connect_symbol, argv := [] }], thrown := none }

/-- The export `_get`. -/
def _Get (c : Connection) (args : List Value) (a : attach_response) (r : get_response) :
    Option Returned :=
  if args.length < 1 || !(Arguments_get args 0).IsString then some (bad_args c)
  else
    let key := (Arguments_get args 0).Utf8Value
    (c._Get key a r).map undefined

/-- The export `_set`, run against the servers holding `w`. -/
def _Set (c : Connection) (w : cache) (args : List Value) (a : attach_response)
    (rc : memcached_return_t) : Option (Returned × cache) :=
  if args.length < 3 || !(Arguments_get args 0).IsString || !(Arguments_get args 1).IsString
      || !(Arguments_get args 2).IsInt32 then some (bad_args c, w)
  else
    let key := (Arguments_get args 0).Utf8Value
    let value := (Arguments_get args 1).Utf8Value
    let expiration := as_uint32 (Arguments_get args 2)
    (c._Set w key value expiration a rc).map fun p => (undefined p.1, p.2)

/-- The export `_incr`. -/
def _Incr (c : Connection) (args : List Value) (a : attach_response) (r : counter_response) :
    Option Returned :=
  if args.length < 2 || !(Arguments_get args 0).IsString || !(Arguments_get args 1).IsInt32 then
    some (bad_args c)
  else
    let key := (Arguments_get args 0).Utf8Value
    let offset := as_uint32 (Arguments_get args 1)
    (c._Incr key offset a r).map undefined

/-- The export `_decr`. -/
def _Decr (c : Connection) (args : List Value) (a : attach_response) (r : counter_response) :
    Option Returned :=
  if args.length < 2 || !(Arguments_get args 0).IsString || !(Arguments_get args 1).IsInt32 then
    some (bad_args c)
  else
    let key := (Arguments_get args 0).Utf8Value
    let offset := as_uint32 (Arguments_get args 1)
    (c._Decr key offset a r).map undefined

/-- The export `_add`. -/
def _Add (c : Connection) (args : List Value) (rc : memcached_return_t) : Option Returned :=
  if args.length < 2 || !(Arguments_get args 0).IsString || !(Arguments_get args 1).IsString then
    some (bad_args c)
  else
    let key := (Arguments_get args 0).Utf8Value
    let value := (Arguments_get args 1).Utf8Value
    some (undefined (c._Cmd _cmd._ADD key value rc))

/-- The export `_replace`. -/
def _Replace (c : Connection) (args : List Value) (rc : memcached_return_t) : Option Returned :=
  if args.length < 2 || !(Arguments_get args 0).IsString || !(Arguments_get args 1).IsString then
    some (bad_args c)
  else
    let key := (Arguments_get args 0).Utf8Value
    let value := (Arguments_get args 1).Utf8Value
    some (undefined (c._Cmd _cmd._REPLACE key value rc))

/-- The export `_prepend`. -/
def _Prepend (c : Connection) (args : List Value) (rc : memcached_return_t) : Option Returned :=
  if args.length < 2 || !(Arguments_get args 0).IsString || !(Arguments_get args 1).IsString then
    some (bad_args c)
  else
    let key := (Arguments_get args 0).Utf8Value
    let value := (Arguments_get args 1).Utf8Value
    some (undefined (c._Cmd _cmd._PREPEND key value rc))

/-- The export `_append`. -/
def _Append (c : Connection) (args : List Value) (rc : memcached_return_t) : Option Returned :=
  if args.length < 2 || !(Arguments_get args 0).IsString || !(Arguments_get args 1).IsString then
    some (bad_args c)
  else
    let key := (Arguments_get args 0).Utf8Value
    let value := (Arguments_get args 1).Utf8Value
    some (undefined (c._Cmd _cmd._APPEND key value rc))

/-- The export `_cas`.  Its third test is `args[2]->IsNumber()`, without the negation
the other tests carry.  `IntegerValue` is the V8 conversion of the token. -/
def _Cas (IntegerValue : Value → Int) (c : Connection) (args : List Value)
    (a : attach_response) (rc : memcached_return_t) : Option Returned :=
  if args.length < 3 || !(Arguments_get args 0).IsString || !(Arguments_get args 1).IsString
      || (Arguments_get args 2).IsNumber then some (bad_args c)
  else
    let key := (Arguments_get args 0).Utf8Value
    let value := (Arguments_get args 1).Utf8Value
    let cas_arg := (IntegerValue (Arguments_get args 2) % 2 ^ 64).toNat
    (c._Cas key value cas_arg a rc).map undefined

/-- The export `_remove`. -/
def _Remove (c : Connection) (args : List Value) (a : attach_response)
    (rc : memcached_return_t) : Option Returned :=
  if args.length < 2 || !(Arguments_get args 0).IsString || !(Arguments_get args 1).IsInt32 then
    some (bad_args c)
  else
    let key := (Arguments_get args 0).Utf8Value
    let expiration := (Arguments_get args 1).Int32Value
    (c._Remove key expiration a rc).map undefined

/-- The export `_flush`. -/
def _Flush (c : Connection) (args : List Value) (a : attach_response)
    (rc : memcached_return_t) : Option Returned :=
  if args.length < 1 || !(Arguments_get args 0).IsInt32 then some (bad_args c)
  else
    let expiration := (Arguments_get args 0).Int32Value
    (c._Flush expiration a rc).map undefined

/-- The export `close`. -/
def Close (c : Connection) (_args : List Value) : Returned :=
  let r := c.Close none
  { conn := r.1, emitted := r.2, thrown := none }

end Connection.Arguments

/-! ## Operation calls, uniformly -/

/-- One call of a public operation together with what libmemcached answers during it. -/
inductive Call
  | get (key : List Nat) (a : attach_response) (r : get_response)
  | set (w : cache) (key value : List Nat) (expiration : Nat) (a : attach_response)
      (rc : memcached_return_t)
  | increment (key : List Nat) (offset : Nat) (a : attach_response) (r : counter_response)
  | decrement (key : List Nat) (offset : Nat) (a : attach_response) (r : counter_response)
  | add (key value : List Nat) (rc : memcached_return_t)
  | replace (key value : List Nat) (rc : memcached_return_t)
  | prepend (key value : List Nat) (rc : memcached_return_t)
  | append (key value : List Nat) (rc : memcached_return_t)
  | compareAndSwap (key value : List Nat) (cas_arg : Nat) (a : attach_response)
      (rc : memcached_return_t)
  | remove (key : List Nat) (expiration : Int) (a : attach_response) (rc : memcached_return_t)
  | flush (expiration : Int) (a : attach_response) (rc : memcached_return_t)

/-- The method a call runs. -/
def Call.run (c : Connection) : Call → Option Connection
  | .get key a r => c._Get key a r
  | .set w key value expiration a rc => (c._Set w key value expiration a rc).map Prod.fst
  | .increment key offset a r => c._Incr key offset a r
  | .decrement key offset a r => c._Decr key offset a r
  | .add key value rc => some (c._Cmd _cmd._ADD key value rc)
  | .replace key value rc => some (c._Cmd _cmd._REPLACE key value rc)
  | .prepend key value rc => some (c._Cmd _cmd._PREPEND key value rc)
  | .append key value rc => some (c._Cmd _cmd._APPEND key value rc)
  | .compareAndSwap key value cas_arg a rc => c._Cas key value cas_arg a rc
  | .remove key expiration a rc => c._Remove key expiration a rc
  | .flush expiration a rc => c._Flush expiration a rc

/-- The status the protocol call of a call returns. -/
def Call.status : Call → memcached_return_t
  | .get _ _ r => r.rc
  | .set _ _ _ _ _ rc => rc
  | .increment _ _ _ r => r.rc
  | .decrement _ _ _ r => r.rc
  | .add _ _ rc => rc
  | .replace _ _ rc => rc
  | .prepend _ _ rc => rc
  | .append _ _ rc => rc
  | .compareAndSwap _ _ _ _ rc => rc
  | .remove _ _ _ rc => rc
  | .flush _ _ rc => rc

/-- The key and library answers handed to `memcached_attach_fd` by a call; none for
the four calls that go through `_Cmd`. -/
def Call.attach : Call → Option (Option (List Nat) × attach_response)
  | .get key a _ => some (some key, a)
  | .set _ key _ _ a _ => some (some key, a)
  | .increment key _ a _ => some (some key, a)
  | .decrement key _ a _ => some (some key, a)
  | .add _ _ _ => none
  | .replace _ _ _ => none
  | .prepend _ _ _ => none
  | .append _ _ _ => none
  | .compareAndSwap key _ _ a _ => some (some key, a)
  | .remove key _ a _ => some (some key, a)
  | .flush _ a _ => some (none, a)

/-- The index `memcached_attach_fd` computes: the last server for a NULL or empty key,
the hash otherwise. -/
def selected (c : Connection) (key : Option (List Nat)) (a : attach_response) : Nat :=
  if key = none ∨ key = some [] then c.memc_.number_of_hosts - 1 else a.hash

/-- The index computed by `memcached_attach_fd` lies inside `memc_.servers`: there is a
server, and a hash, when one is computed, is the index of one. -/
def selects (c : Connection) (key : Option (List Nat)) (a : attach_response) : Prop :=
  selected c key a < c.memc_.servers.length

instance (c : Connection) (key : Option (List Nat)) (a : attach_response) :
    Decidable (selects c key a) := by
  unfold selects
  infer_instance

/-- The index handed to `memcached_attach_fd` by a call is inside `memc_.servers`; true of
the four `_Cmd` calls, which select no server. -/
def Call.selects (c : Connection) (op : Call) : Prop :=
  match op.attach with
  | none => True
  | some (key, a) => Memcache.selects c key a

/-- The registered servers: host and port of every entry, in order. -/
def registered (memc : memcached_st) : List (List Nat × Int) :=
  memc.servers.map (fun s => (s.hostname, s.port))

/-! ## Calls from JavaScript, uniformly -/

/-- One call of an exported operation method together with what the libraries answer
during it. -/
inductive Export
  | _get (a : attach_response) (r : get_response)
  | _set (w : cache) (a : attach_response) (rc : memcached_return_t)
  | _incr (a : attach_response) (r : counter_response)
  | _decr (a : attach_response) (r : counter_response)
  | _add (rc : memcached_return_t)
  | _replace (rc : memcached_return_t)
  | _prepend (rc : memcached_return_t)
  | _append (rc : memcached_return_t)
  | _cas (IntegerValue : Value → Int) (a : attach_response) (rc : memcached_return_t)
  | _remove (a : attach_response) (rc : memcached_return_t)
  | _flush (a : attach_response) (rc : memcached_return_t)

/-- The exported method a call runs on the argument list. -/
def Export.call (c : Connection) (args : List Value) : Export → Option Returned
  | ._get a r => Connection.Arguments._Get c args a r
  | ._set w a rc => (Connection.Arguments._Set c w args a rc).map Prod.fst
  | ._incr a r => Connection.Arguments._Incr c args a r
  | ._decr a r => Connection.Arguments._Decr c args a r
  | ._add rc => Connection.Arguments._Add c args rc
  | ._replace rc => Connection.Arguments._Replace c args rc
  | ._prepend rc => Connection.Arguments._Prepend c args rc
  | ._append rc => Connection.Arguments._Append c args rc
  | ._cas IntegerValue a rc => Connection.Arguments._Cas IntegerValue c args a rc
  | ._remove a rc => Connection.Arguments._Remove c args a rc
  | ._flush a rc => Connection.Arguments._Flush c args a rc

/-- The call is `_cas`. -/
def Export.is_cas : Export → Bool
  | ._cas _ _ _ => true
  | _ => false

/-- The argument shape the specification asks for: enough arguments, key and value
strings, expiration and offset 32-bit integers, the token of `compareAndSwap` a
number. -/
def Export.well_formed (args : List Value) : Export → Bool
  | ._get _ _ => decide (1 ≤ args.length) && (Arguments_get args 0).IsString
  | ._set _ _ _ =>
    decide (3 ≤ args.length) && (Arguments_get args 0).IsString && (Arguments_get args 1).IsString
      && (Arguments_get args 2).IsInt32
  | ._incr _ _ =>
    decide (2 ≤ args.length) && (Arguments_get args 0).IsString && (Arguments_get args 1).IsInt32
  | ._decr _ _ =>
    decide (2 ≤ args.length) && (Arguments_get args 0).IsString && (Arguments_get args 1).IsInt32
  | ._add _ =>
    decide (2 ≤ args.length) && (Arguments_get args 0).IsString && (Arguments_get args 1).IsString
  | ._replace _ =>
    decide (2 ≤ args.length) && (Arguments_get args 0).IsString && (Arguments_get args 1).IsString
  | ._prepend _ =>
    decide (2 ≤ args.length) && (Arguments_get args 0).IsString && (Arguments_get args 1).IsString
  | ._append _ =>
    decide (2 ≤ args.length) && (Arguments_get args 0).IsString && (Arguments_get args 1).IsString
  | ._cas _ _ _ =>
    decide (3 ≤ args.length) && (Arguments_get args 0).IsString && (Arguments_get args 1).IsString
      && (Arguments_get args 2).IsNumber
  | ._remove _ _ =>
    decide (2 ≤ args.length) && (Arguments_get args 0).IsString && (Arguments_get args 1).IsInt32
  | ._flush _ _ => decide (1 ≤ args.length) && (Arguments_get args 0).IsInt32

/-! ## Deliveries, slots after a call, and the round trip scenario -/

/-- The two notifications of a delivery. -/
def delivery (args : Value) : List Notification :=
  [{ symbol := Symbol.result_symbol, argv := [args] },
   { symbol := Symbol.ready_symbol, argv := [] }]

/-- The slot a call leaves behind, read off the methods: `_Get` stores the returned
pointer in `u.c` whatever it is and tags the slot only when the pointer is not NULL;
every other method touches the slot only after a success status. -/
def Call.slot_after (before : mval) : Call → mval
  | .get _ _ r =>
    { type := if r.returned ≠ none then mval_type.MVAL_STRING else before.type
      u := mval_u.c r.returned }
  | .increment _ _ _ r =>
    if r.rc = MEMCACHED_SUCCESS then
      { type := mval_type.MVAL_LONG, u := mval_u.l (r.value % 2 ^ 64) }
    else before
  | .decrement _ _ _ r =>
    if r.rc = MEMCACHED_SUCCESS then
      { type := mval_type.MVAL_LONG, u := mval_u.l (r.value % 2 ^ 64) }
    else before
  | op =>
    if op.status = MEMCACHED_SUCCESS then { type := mval_type.MVAL_BOOL, u := mval_u.b 1 }
    else before

/-- A connection as one successful `addServer` leaves it: one server with its socket
open on descriptor 7, nothing pending, both watchers stopped. -/
def one_server : Connection :=
  { memc_ :=
      { servers := [{ hostname := [108, 111, 99, 97, 108, 104, 111, 115, 116], port := 11211, fd := 7 }]
        no_block := true
        distribution := 0 }
    read_watcher_ := { active := false, fd := 0, events := 0 }
    write_watcher_ := { active := false, fd := 0, events := 0 }
    mval_ := { type := mval_type.MVAL_NONE, u := mval_u.b 0 }
    rc := 0 }

/-- The same connection with the write watcher started on the server's socket, as
`memcached_attach_fd` leaves the watchers. -/
def one_server_watched : Connection :=
  { one_server with
    read_watcher_ := { active := false, fd := 7, events := EV_READ }
    write_watcher_ := { active := true, fd := 7, events := EV_WRITE } }

/-- Library answers for `memcached_attach_fd` on `one_server`: the key hashes to
server 0 and a handshake would yield descriptor 7. -/
def answers : attach_response :=
  { hash := 0, version := { rc := MEMCACHED_SUCCESS, fd := fun _ => 7 } }

/-- A message table standing for `memcached_strerror` in the examples. -/
def sample_strerror (rc : memcached_return_t) : String :=
  if rc = MEMCACHED_SUCCESS then "SUCCESS" else "FAILURE"

/-- A status other than success, standing for a protocol failure in the examples. -/
def sample_failure : memcached_return_t := 16

/-! ## Facts about the library models -/

theorem memcached_version_length (memc : memcached_st) (r : version_response) :
    (memcached_version memc r).servers.length = memc.servers.length := by
  simp [memcached_version]

theorem memcached_version_registered (memc : memcached_st) (r : version_response) :
    registered (memcached_version memc r) = registered memc := by
  unfold registered memcached_version
  apply List.ext_getElem
  · simp
  · intro i h1 h2
    simp only [List.getElem_map, List.getElem_enum]
    split <;> rfl

theorem servers_at_some (memc : memcached_st) (i : Nat) (h : i < memc.servers.length) :
    servers_at memc (i : Int) = some (memc.servers.get ⟨i, h⟩) := by
  unfold servers_at
  have h0 : ¬ ((i : Int) < 0) := by omega
  simp [h0, List.getElem?_eq_getElem h]

/-! ## Facts about `memcached_attach_fd` -/

theorem attach_index (c : Connection) (key : Option (List Nat)) (a : attach_response)
    (h : c.memc_.servers ≠ []) :
    (if key = none ∨ key = some [] then (c.memc_.number_of_hosts : Int) - 1 else (a.hash : Int))
      = ((selected c key a : Nat) : Int) := by
  have hpos : 0 < c.memc_.servers.length := List.length_pos.mpr h
  unfold selected memcached_st.number_of_hosts
  split
  · omega
  · rfl

/-- With the index inside `memc_.servers`, `memcached_attach_fd` returns: it starts the
write watcher on the descriptor of the selected server, sets the read watcher to
that descriptor without starting it, and leaves slot, status and registered
servers alone. -/
theorem memcached_attach_fd_spec (c : Connection) (key : Option (List Nat))
    (a : attach_response) (h : selects c key a) :
    ∃ c1 s, c.memcached_attach_fd key a = some c1 ∧
      c1.memc_.servers.get? (selected c key a) = some s ∧
      c1.write_watcher_ = { active := true, fd := s.fd, events := EV_WRITE } ∧
      c1.read_watcher_ = { active := c.read_watcher_.active, fd := s.fd, events := EV_READ } ∧
      c1.mval_ = c.mval_ ∧ c1.rc = c.rc ∧
      registered c1.memc_ = registered c.memc_ := by
  have hlt : selected c key a < c.memc_.servers.length := h
  have hne : c.memc_.servers ≠ [] := List.ne_nil_of_length_pos (by omega)
  unfold Connection.memcached_attach_fd
  rw [attach_index c key a hne]
  simp only [servers_at_some c.memc_ _ hlt]
  by_cases hfd : (c.memc_.servers.get ⟨selected c key a, hlt⟩).fd = -1
  · have hlt2 : selected c key a < (memcached_version c.memc_ a.version).servers.length := by
      rw [memcached_version_length]; exact hlt
    simp only [hfd, if_true, servers_at_some _ _ hlt2]
    refine ⟨_, _, rfl, ?_, rfl, rfl, rfl, rfl, ?_⟩
    · exact List.get?_eq_get hlt2
    · exact memcached_version_registered _ _
  · simp only [hfd, if_false, servers_at_some _ _ hlt]
    refine ⟨_, _, rfl, ?_, rfl, rfl, rfl, rfl, rfl⟩
    exact List.get?_eq_get hlt

/-! ## Facts about `Event` -/

/-- A report of exactly write-readiness runs the `switch`, stops the write watcher and
emits "result" with the decoded value, then "ready". -/
theorem Event_write_of_decode (memcached_strerror : memcached_return_t → String)
    (c c1 : Connection) (args : Value) (h : Connection.decode memcached_strerror c = some (args, c1)) :
    Connection.Event memcached_strerror c EV_WRITE =
      some ({ c1 with write_watcher_ := ev_io_stop c1.write_watcher_ }, delivery args) := by
  have e1 : EV_WRITE &&& EV_ERROR = 0 := by decide
  have e2 : EV_WRITE &&& EV_READ = 0 := by decide
  have e3 : EV_WRITE &&& EV_WRITE ≠ 0 := by decide
  unfold Connection.Event
  rw [if_neg (by rw [e1]; simp), if_neg (by rw [e2]; simp), if_pos e3, h]
  rfl

/-! ## Facts about the operation calls -/

/-- Every call that goes through `memcached_attach_fd` returns when the index is inside
`memc_.servers`, with the write watcher started on the descriptor of the selected
server and the status of the protocol call recorded. -/
theorem attached_call_arms_watch (c : Connection) (op : Call) (key : Option (List Nat))
    (a : attach_response) (hop : op.attach = some (key, a)) (h : selects c key a) :
    ∃ c1 s, op.run c = some c1 ∧
      c1.memc_.servers.get? (selected c key a) = some s ∧
      c1.write_watcher_ = { active := true, fd := s.fd, events := EV_WRITE } ∧
      c1.rc = op.status ∧
      registered c1.memc_ = registered c.memc_ := by
  obtain ⟨c0, s, h1, h2, h3, -, -, -, h7⟩ := memcached_attach_fd_spec c key a h
  cases op <;> simp only [Call.attach, Option.some.injEq, Prod.mk.injEq, reduceCtorEq] at hop
  all_goals
    obtain ⟨rfl, rfl⟩ := hop
    simp only [Call.run, Call.status, Connection._Get, Connection._Set, Connection._Incr,
      Connection._Decr, Connection._Cas, Connection._Remove, Connection._Flush, h1,
      Option.map_some']
    refine ⟨_, s, rfl, ?_, ?_, ?_, ?_⟩ <;>
      (split <;> simp_all [Connection.store_true, Connection.store_long])

/-- Every call returns when the index it selects is inside `memc_.servers`; it records
the status of the protocol call and leaves the slot described by `slot_after`. -/
theorem call_returns (c : Connection) (op : Call) (h : op.selects c) :
    ∃ c1, op.run c = some c1 ∧ c1.rc = op.status ∧ c1.mval_ = op.slot_after c.mval_ ∧
      registered c1.memc_ = registered c.memc_ := by
  cases op
  case add key value rc =>
    cases hrc : decide (rc = MEMCACHED_SUCCESS) <;>
      simp_all [Call.run, Call.status, Call.slot_after, Connection._Cmd, Connection.store_true]
  case replace key value rc =>
    cases hrc : decide (rc = MEMCACHED_SUCCESS) <;>
      simp_all [Call.run, Call.status, Call.slot_after, Connection._Cmd, Connection.store_true]
  case prepend key value rc =>
    cases hrc : decide (rc = MEMCACHED_SUCCESS) <;>
      simp_all [Call.run, Call.status, Call.slot_after, Connection._Cmd, Connection.store_true]
  case append key value rc =>
    cases hrc : decide (rc = MEMCACHED_SUCCESS) <;>
      simp_all [Call.run, Call.status, Call.slot_after, Connection._Cmd, Connection.store_true]
  all_goals
    simp only [Call.selects, Call.attach] at h
    obtain ⟨c0, s, h1, -, -, -, h5, h6, h7⟩ := memcached_attach_fd_spec c _ _ h
    simp only [Call.run, Call.status, Call.slot_after, Connection._Get, Connection._Set,
      Connection._Incr, Connection._Decr, Connection._Cas, Connection._Remove,
      Connection._Flush, h1, Option.map_some']
    refine ⟨_, rfl, ?_, ?_, ?_⟩ <;>
      (split <;> simp_all [Connection.store_true, Connection.store_long])

/-! ## Facts about the `switch` of `Event`, conversions and the round trip -/

theorem decode_bool (memcached_strerror : memcached_return_t → String) (c : Connection) (v : Int)
    (h : c.mval_ = { type := mval_type.MVAL_BOOL, u := mval_u.b v }) :
    Connection.decode memcached_strerror c =
      some (Boolean_New v,
        { c with mval_ := { type := mval_type.MVAL_NONE, u := mval_u.b 0 }, rc := -1 }) := by
  unfold Connection.decode
  rw [h]
  rfl

theorem decode_string (memcached_strerror : memcached_return_t → String) (c : Connection)
    (buf : List Nat) (h : c.mval_ = { type := mval_type.MVAL_STRING, u := mval_u.c (some buf) }) :
    Connection.decode memcached_strerror c =
      some (Value.String (String_New buf),
        { c with mval_ := { type := mval_type.MVAL_NONE, u := mval_u.c (some buf) }, rc := -1 }) := by
  unfold Connection.decode
  rw [h]
  rfl

/-- A number in the range of `int32_t` converts to itself. -/
theorem Int32Value_of_int32 (n : Int) (h : -(2 ^ 31) ≤ n ∧ n < 2 ^ 31) :
    (Value.Number n).Int32Value = n := by
  unfold Value.Int32Value to_int32
  have e32 : (2 : Int) ^ 32 = 4294967296 := by norm_num
  have n32 : (2 : Nat) ^ 32 = 4294967296 := by norm_num
  have n31 : (2 : Nat) ^ 31 = 2147483648 := by norm_num
  have e31 : (2 : Int) ^ 31 = 2147483648 := by norm_num
  rw [e31] at h
  simp only [e32, n32, n31]
  have hnn : 0 ≤ n % 4294967296 := Int.emod_nonneg _ (by norm_num)
  have hcast : (((n % 4294967296).toNat : Nat) : Int) = n % 4294967296 := Int.toNat_of_nonneg hnn
  split <;> push_cast <;> omega

theorem decode_long (memcached_strerror : memcached_return_t → String) (c : Connection) (v : Nat)
    (h : c.mval_ = { type := mval_type.MVAL_LONG, u := mval_u.l v }) :
    Connection.decode memcached_strerror c =
      some (Integer_New v,
        { c with mval_ := { type := mval_type.MVAL_NONE, u := mval_u.l 0 }, rc := -1 }) := by
  unfold Connection.decode
  rw [h]
  rfl

theorem decode_none (memcached_strerror : memcached_return_t → String) (c : Connection)
    (h : c.mval_.type = mval_type.MVAL_NONE) :
    Connection.decode memcached_strerror c = some (Value.Error (memcached_strerror c.rc), c) := by
  unfold Connection.decode
  rw [h]

/-- What a report of exactly write-readiness delivers, tag by tag: an Error with the
message of the last status for an empty slot, the string before the first zero byte
for a String, the value converted to `int32_t` for an Integer, and whether the int is
non-zero for a Boolean; each time "result" with that one value, then "ready". -/
theorem Event_write_tagged (memcached_strerror : memcached_return_t → String) (c : Connection) :
    (c.mval_.type = mval_type.MVAL_NONE →
      Connection.Event memcached_strerror c EV_WRITE
        = some ({ c with write_watcher_ := ev_io_stop c.write_watcher_ },
                delivery (Value.Error (memcached_strerror c.rc)))) ∧
    (∀ buf, c.mval_ = { type := mval_type.MVAL_STRING, u := mval_u.c (some buf) } →
      (Connection.Event memcached_strerror c EV_WRITE).map Prod.snd
        = some (delivery (Value.String (String_New buf)))) ∧
    (∀ v, c.mval_ = { type := mval_type.MVAL_LONG, u := mval_u.l v } →
      (Connection.Event memcached_strerror c EV_WRITE).map Prod.snd
        = some (delivery (Value.Number (to_int32 v)))) ∧
    (∀ v, c.mval_ = { type := mval_type.MVAL_BOOL, u := mval_u.b v } →
      (Connection.Event memcached_strerror c EV_WRITE).map Prod.snd
        = some (delivery (Value.Boolean (decide (v ≠ 0))))) := by
  refine ⟨fun h => ?_, fun buf h => ?_, fun v h => ?_, fun v h => ?_⟩
  · rw [Event_write_of_decode memcached_strerror c _ _ (decode_none memcached_strerror c h)]
  · rw [Event_write_of_decode memcached_strerror c _ _ (decode_string memcached_strerror c buf h)]
    rfl
  · rw [Event_write_of_decode memcached_strerror c _ _ (decode_long memcached_strerror c v h)]
    rfl
  · rw [Event_write_of_decode memcached_strerror c _ _ (decode_bool memcached_strerror c v h)]
    rfl

/-- A call whose protocol status is not success returns with the tag it found; unless the
call is a `get`, it returns with the whole slot as it found it. -/
theorem failed_call_keeps_tag (c : Connection) (op : Call) (h : op.selects c)
    (hrc : op.status ≠ MEMCACHED_SUCCESS) :
    ∃ c1, op.run c = some c1 ∧ c1.mval_.type = c.mval_.type ∧
      ((∀ key a r, op ≠ Call.get key a r) → c1.mval_ = c.mval_) := by
  obtain ⟨c1, h1, -, h3, -⟩ := call_returns c op h
  refine ⟨c1, h1, ?_, ?_⟩
  · cases op
    case get key a r =>
      cases r
      · exact absurd rfl hrc
      · rw [h3]; rfl
    all_goals
      simp only [Call.status] at hrc
      simp [h3, Call.slot_after, Call.status, hrc]
  · intro hget
    cases op
    case get key a r => exact absurd rfl (hget key a r)
    all_goals
      simp only [Call.status] at hrc
      simp [h3, Call.slot_after, Call.status, hrc]

/-! ## Facts about the argument checks -/

theorem undefined_not_thrown (o : Option Connection) (res : Returned)
    (h : o.map undefined = some res) : res.thrown = none := by
  cases o with
  | none => simp at h
  | some c1 =>
    simp only [Option.map_some', Option.some.injEq] at h
    rw [← h]
    rfl

/-- The connection side of the export `_set`: the same check as the other exports, then
the connection `_Set` returns. -/
theorem Arguments_Set_fst (c : Connection) (w : cache) (args : List Value) (a : attach_response)
    (rc : memcached_return_t) :
    (Connection.Arguments._Set c w args a rc).map Prod.fst =
      if args.length < 3 || !(Arguments_get args 0).IsString || !(Arguments_get args 1).IsString
          || !(Arguments_get args 2).IsInt32 then some (bad_args c)
      else
        ((c._Set w (Arguments_get args 0).Utf8Value (Arguments_get args 1).Utf8Value
          (as_uint32 (Arguments_get args 2)) a rc).map Prod.fst).map undefined := by
  unfold Connection.Arguments._Set
  split
  · rfl
  · simp only [Option.map_map]
    rfl

/-- A call that throws was rejected by the argument check, before the connection was
touched: the connection is the one the call found and nothing was emitted. -/
theorem thrown_keeps_connection (c : Connection) (args : List Value) (e : Export)
    (res : Returned) (h : e.call c args = some res) (ht : res.thrown ≠ none) :
    res = bad_args c := by
  cases e <;>
    simp only [Export.call, Connection.Arguments._Get, Arguments_Set_fst,
      Connection.Arguments._Incr, Connection.Arguments._Decr, Connection.Arguments._Add,
      Connection.Arguments._Replace, Connection.Arguments._Prepend,
      Connection.Arguments._Append, Connection.Arguments._Cas, Connection.Arguments._Remove,
      Connection.Arguments._Flush] at h <;>
    split at h <;>
    first
      | exact (Option.some.inj h).symm
      | exact absurd (undefined_not_thrown _ res h) ht
      | (rw [← Option.some.inj h] at ht; exact absurd rfl ht)

/-- Every exported operation other than `_cas` rejects exactly the argument lists that
are not well formed. -/
theorem rejected_iff_malformed (c : Connection) (args : List Value) (e : Export)
    (he : e.is_cas = false) :
    e.call c args = some (bad_args c) ↔ e.well_formed args = false := by
  have hne : ∀ o : Option Connection, o.map undefined ≠ some (bad_args c) := by
    intro o h
    have := undefined_not_thrown o _ h
    simp [bad_args] at this
  have hne2 : ∀ c1 : Connection, some (undefined c1) ≠ some (bad_args c) := by
    intro c1 h
    exact hne (some c1) h
  cases e <;> simp only [Export.is_cas, reduceCtorEq] at he <;>
    simp only [Export.call, Export.well_formed, Connection.Arguments._Get,
      Arguments_Set_fst, Connection.Arguments._Incr, Connection.Arguments._Decr,
      Connection.Arguments._Add, Connection.Arguments._Replace, Connection.Arguments._Prepend,
      Connection.Arguments._Append, Connection.Arguments._Remove, Connection.Arguments._Flush] <;>
    split <;> rename_i hc <;>
    simp_all [hne, hne2] <;> intros <;> (repeat' rcases hc with hc | hc) <;>
    first | omega | simp_all

/-- What every call leaves in a slot it found empty: after `get` String(value) when the
client returns a buffer and an empty slot when it returns NULL; after `increment` and
`decrement` Integer(new counter value) on a success status; after the eight other
operations Boolean(true) on a success status; an empty slot after any other status.
The last status code is the returned status each time. -/
theorem slot_population (c : Connection) (op : Call)
    (hempty : c.mval_.type = mval_type.MVAL_NONE) (hsel : op.selects c) :
    ∃ c1, op.run c = some c1 ∧ c1.rc = op.status ∧
      (match op with
       | .get _ _ (.value buf) =>
         c1.mval_ = { type := mval_type.MVAL_STRING, u := mval_u.c (some buf) }
       | .get _ _ (.null _) => c1.mval_.type = mval_type.MVAL_NONE
       | .increment _ _ _ r | .decrement _ _ _ r =>
         (r.rc = MEMCACHED_SUCCESS →
            c1.mval_ = { type := mval_type.MVAL_LONG, u := mval_u.l (r.value % 2 ^ 64) }) ∧
         (r.rc ≠ MEMCACHED_SUCCESS → c1.mval_.type = mval_type.MVAL_NONE)
       | _ =>
         (op.status = MEMCACHED_SUCCESS →
            c1.mval_ = { type := mval_type.MVAL_BOOL, u := mval_u.b 1 }) ∧
         (op.status ≠ MEMCACHED_SUCCESS → c1.mval_.type = mval_type.MVAL_NONE)) := by
  obtain ⟨c1, h1, h2, h3, -⟩ := call_returns c op hsel
  refine ⟨c1, h1, h2, ?_⟩
  cases op
  case get key a r =>
    cases r <;> simp [h3, Call.slot_after, get_response.returned, hempty]
  all_goals
    simp only [h3, Call.slot_after, Call.status]
    constructor <;> intro hrc <;> simp [hrc, hempty]

/-! ## Facts about the servers' side of `set` and `get` -/

/-- C1, the code at a failing input: with the slot tagged Integer and holding
2^32 + 7, a report of exactly write-readiness emits "result" with one value and then
"ready" with none, empties the tag and stops the write watcher; but the value
carried is the Integer 7, not the held 4294967303, because `Integer::New` takes an
`int32_t`. -/
theorem C1_event_write_integer_slot (memcached_strerror : memcached_return_t → String) :
    Connection.Event memcached_strerror
        { one_server_watched with
          mval_ := { type := mval_type.MVAL_LONG, u := mval_u.l 4294967303 } } EV_WRITE
      = some
        ({ one_server_watched with
            mval_ := { type := mval_type.MVAL_NONE, u := mval_u.l 0 }
            rc := -1
            write_watcher_ := { active := false, fd := 7, events := EV_WRITE } },
         [{ symbol := Symbol.result_symbol, argv := [Value.Number 7] },
          { symbol := Symbol.ready_symbol, argv := [] }]) := by
  rfl

/-- C2, the code at a failing input: the servers hold a value of length zero under the
key, so `memcached_get` answers NULL with status `MEMCACHED_SUCCESS`.  On a
connection whose slot is empty the `get` returns with the status success recorded
and the slot still empty, not String(value): `_Get` alone tests the returned
pointer where every other method tests `rc == MEMCACHED_SUCCESS`.  The report of
write-readiness that follows delivers an Error whose message is that of the
success status. -/
theorem C2_get_null_with_success_leaves_slot_empty :
    memcached_get [([107], [])] [107] = get_response.null MEMCACHED_SUCCESS ∧
    Call.status (Call.get [107] answers (memcached_get [([107], [])] [107])) = MEMCACHED_SUCCESS ∧
    one_server.mval_.type = mval_type.MVAL_NONE ∧
    (Call.run one_server (Call.get [107] answers (memcached_get [([107], [])] [107]))).map
        (fun c => (c.mval_.type, c.rc))
      = some (mval_type.MVAL_NONE, MEMCACHED_SUCCESS) ∧
    ((Call.run one_server (Call.get [107] answers (memcached_get [([107], [])] [107]))).bind
        (fun c => Connection.Event sample_strerror c EV_WRITE)).map Prod.snd
      = some [{ symbol := Symbol.result_symbol, argv := [Value.Error "SUCCESS"] },
              { symbol := Symbol.ready_symbol, argv := [] }] :=
  ⟨rfl, rfl, rfl, rfl, rfl⟩

/-- C3, the code on `add`, `replace`, `prepend` and `append`: `_Cmd` never calls
`memcached_attach_fd`, so for every connection it leaves both watchers exactly as
they were; on a connection with one server and a stopped write watcher, a
successful `add` returns with the write watcher still stopped while Boolean(true)
is pending. -/
theorem C3_cmd_leaves_watch_unarmed (c : Connection) (cmd : _cmd) (key value : List Nat)
    (rc : memcached_return_t) :
    (c._Cmd cmd key value rc).write_watcher_ = c.write_watcher_ ∧
    (c._Cmd cmd key value rc).read_watcher_ = c.read_watcher_ ∧
    (Connection.Arguments._Add one_server [Value.String [107], Value.String [118]]
        MEMCACHED_SUCCESS).map (fun r => (r.conn.write_watcher_.active, r.conn.mval_.type, r.thrown))
      = some (false, mval_type.MVAL_BOOL, none) := by
  refine ⟨?_, ?_, rfl⟩ <;>
    (unfold Connection._Cmd Connection.store_true; cases cmd <;> (simp only []; split <;> rfl))

/-- C5, the code on a watch error: for every connection and every readiness mask with
the Error bit set, `Event` stops both watchers and emits exactly one notification,
"close", whose payload is empty: `Close()` is called without an exception, so no
Error value is carried. -/
theorem C5_event_error_closes_without_payload (memcached_strerror : memcached_return_t → String)
    (c : Connection) (revents : Nat) (h : revents &&& EV_ERROR ≠ 0) :
    Connection.Event memcached_strerror c revents =
      some ({ c with
              read_watcher_ := { c.read_watcher_ with active := false }
              write_watcher_ := { c.write_watcher_ with active := false } },
            [{ symbol := Symbol.close_symbol, argv := [] }]) := by
  unfold Connection.Event
  rw [if_pos h]
  rfl

/-- C5 at a concrete input: a pending Boolean, the mask {Write, Error}. -/
theorem C5_event_error_closes_without_payload_witness :
    (EV_WRITE ||| EV_ERROR) &&& EV_ERROR ≠ 0 ∧
    Connection.Event sample_strerror
        { one_server_watched with mval_ := { type := mval_type.MVAL_BOOL, u := mval_u.b 1 } }
        (EV_WRITE ||| EV_ERROR)
      = some
        ({ one_server_watched with
            mval_ := { type := mval_type.MVAL_BOOL, u := mval_u.b 1 }
            write_watcher_ := { active := false, fd := 7, events := EV_WRITE } },
         [{ symbol := Symbol.close_symbol, argv := [] }]) :=
  ⟨by decide, C5_event_error_closes_without_payload sample_strerror _ _ (by decide)⟩

/-- C6, the claim fails when the handshake fails: on a connection without servers,
`addServer("localhost", 11211)` whose append succeeds and whose version handshake
fails throws an Error and emits nothing, yet the server stays registered. -/
theorem C6_failed_handshake_keeps_server :
    (Connection.Arguments.AddServer sample_strerror (Connection.new one_server)
        [Value.String [108, 111, 99, 97, 108, 104, 111, 115, 116], Value.Number 11211]
        MEMCACHED_SUCCESS { rc := sample_failure, fd := fun _ => -1 }).thrown
      = some (Value.Error "FAILURE") ∧
    (Connection.Arguments.AddServer sample_strerror (Connection.new one_server)
        [Value.String [108, 111, 99, 97, 108, 104, 111, 115, 116], Value.Number 11211]
        MEMCACHED_SUCCESS { rc := sample_failure, fd := fun _ => -1 }).emitted = [] ∧
    registered (Connection.Arguments.AddServer sample_strerror (Connection.new one_server)
        [Value.String [108, 111, 99, 97, 108, 104, 111, 115, 116], Value.Number 11211]
        MEMCACHED_SUCCESS { rc := sample_failure, fd := fun _ => -1 }).conn.memc_
      = [([108, 111, 99, 97, 108, 104, 111, 115, 116], 11211)] ∧
    registered (Connection.new one_server).memc_ = [] :=
  ⟨rfl, rfl, rfl, rfl⟩

/-- C6 as amended: for every connection, host and 32-bit port, `addServer(host, port)`
behaves as follows.  If appending the server fails, the registered servers are
unchanged, nothing is emitted and an Error with the status message is thrown.  If
the append succeeds and the version handshake fails, nothing is emitted and an
Error with the status message is thrown, and the server stays appended.  If both
succeed, the server is appended, nothing is thrown and "connect" is emitted exactly
once. -/
theorem C6_addServer_outcomes (memcached_strerror : memcached_return_t → String)
    (c : Connection) (host : List Nat) (port : Int) (more : List Value)
    (add_rc : memcached_return_t) (v : version_response)
    (hport : -(2 ^ 31) ≤ port ∧ port < 2 ^ 31) :
    let r := Connection.Arguments.AddServer memcached_strerror c
      (Value.String host :: Value.Number port :: more) add_rc v
    (add_rc ≠ MEMCACHED_SUCCESS →
      registered r.conn.memc_ = registered c.memc_ ∧ r.emitted = [] ∧
        r.thrown = some (Value.Error (memcached_strerror add_rc))) ∧
    (add_rc = MEMCACHED_SUCCESS → v.rc ≠ MEMCACHED_SUCCESS →
      registered r.conn.memc_ = registered c.memc_ ++ [(host, port)] ∧ r.emitted = [] ∧
        r.thrown = some (Value.Error (memcached_strerror v.rc))) ∧
    (add_rc = MEMCACHED_SUCCESS → v.rc = MEMCACHED_SUCCESS →
      registered r.conn.memc_ = registered c.memc_ ++ [(host, port)] ∧
        r.emitted = [{ symbol := Symbol.connect_symbol, argv := [] }] ∧ r.thrown = none) := by
  have hchk : (decide ((Value.String host :: Value.Number port :: more).length < 2)
      || !(Arguments_get (Value.String host :: Value.Number port :: more) 0).IsString
      || !(Arguments_get (Value.String host :: Value.Number port :: more) 1).IsInt32) = false := by
    have hb : -2147483648 ≤ port ∧ port < 2147483648 := by omega
    simp [Arguments_get, Value.IsString, Value.IsInt32, hb.1, hb.2]
  have hp : (Arguments_get (Value.String host :: Value.Number port :: more) 1).Int32Value = port :=
    Int32Value_of_int32 port hport
  have hh : (Arguments_get (Value.String host :: Value.Number port :: more) 0).Utf8Value = host := rfl
  intro r
  have hr : r = Connection.Arguments.AddServer memcached_strerror c
      (Value.String host :: Value.Number port :: more) add_rc v := rfl
  unfold Connection.Arguments.AddServer at hr
  rw [hchk] at hr
  simp only [Bool.false_eq_true, if_false, hp, hh] at hr
  refine ⟨?_, ?_, ?_⟩
  · intro hadd
    simp [hr, Connection.AddServer, hadd, Connection.ErrorMessage, memcached_server_add]
  · intro hadd hver
    simp [hr, Connection.AddServer, hadd, hver, Connection.ErrorMessage, memcached_server_add,
      memcached_version_registered]
    simp [registered]
  · intro hadd hver
    simp [hr, Connection.AddServer, hadd, hver, memcached_server_add,
      memcached_version_registered]
    simp [registered]

/-- C6 at a concrete input: the first server, append and handshake both succeeding. -/
theorem C6_addServer_outcomes_witness :
    (-(2 ^ 31) ≤ (11211 : Int) ∧ (11211 : Int) < 2 ^ 31) ∧
    registered (Connection.Arguments.AddServer sample_strerror (Connection.new one_server)
        [Value.String [108, 111, 99, 97, 108, 104, 111, 115, 116], Value.Number 11211]
        MEMCACHED_SUCCESS answers.version).conn.memc_
      = registered (Connection.new one_server).memc_
          ++ [([108, 111, 99, 97, 108, 104, 111, 115, 116], 11211)] ∧
    (Connection.Arguments.AddServer sample_strerror (Connection.new one_server)
        [Value.String [108, 111, 99, 97, 108, 104, 111, 115, 116], Value.Number 11211]
        MEMCACHED_SUCCESS answers.version).emitted
      = [{ symbol := Symbol.connect_symbol, argv := [] }] ∧
    (Connection.Arguments.AddServer sample_strerror (Connection.new one_server)
        [Value.String [108, 111, 99, 97, 108, 104, 111, 115, 116], Value.Number 11211]
        MEMCACHED_SUCCESS answers.version).thrown = none :=
  ⟨by decide,
    (C6_addServer_outcomes sample_strerror (Connection.new one_server)
      [108, 111, 99, 97, 108, 104, 111, 115, 116] 11211 [] MEMCACHED_SUCCESS answers.version
      (by decide)).2.2 rfl rfl⟩

/-- C7, the claim fails: on a connection with an armed watch, the second of two
consecutive `close()` calls emits a "close" notification again. -/
theorem C7_second_close_emits_close :
    (Connection.Arguments.Close (Connection.Arguments.Close one_server_watched []).conn []).emitted
      = [{ symbol := Symbol.close_symbol, argv := [] }] := by
  rfl

/-- C7 as amended: for every connection, a second `close()` directly after a first
leaves the connection (watchers, slot, status code, servers) exactly as the first
left it, throws nothing, and emits one "close" notification without payload, as
the first did. -/
theorem C7_second_close_keeps_state_and_emits_close (c : Connection) (args1 args2 : List Value) :
    (Connection.Arguments.Close (Connection.Arguments.Close c args1).conn args2).conn
        = (Connection.Arguments.Close c args1).conn ∧
    (Connection.Arguments.Close (Connection.Arguments.Close c args1).conn args2).emitted
        = [{ symbol := Symbol.close_symbol, argv := [] }] ∧
    (Connection.Arguments.Close c args1).emitted = [{ symbol := Symbol.close_symbol, argv := [] }] ∧
    (Connection.Arguments.Close (Connection.Arguments.Close c args1).conn args2).thrown = none ∧
    (Connection.Arguments.Close c args1).conn.read_watcher_.active = false ∧
    (Connection.Arguments.Close c args1).conn.write_watcher_.active = false :=
  ⟨rfl, rfl, rfl, rfl, rfl, rfl⟩

/-- C8, the code on `compareAndSwap`: for every key, value and number token the call is
rejected with "Bad arguments" and the connection is left as it was; with a third
argument that is not a number (here `Undefined`) the call is dispatched to `_Cas`.
The test on the token lacks the negation that every other argument test has. -/
theorem C8_cas_rejects_number_token (IntegerValue : Value → Int) (c : Connection)
    (key value : List Nat) (token : Int) (a : attach_response) (rc : memcached_return_t) :
    Connection.Arguments._Cas IntegerValue c
        [Value.String key, Value.String value, Value.Number token] a rc
      = some { conn := c, emitted := [], thrown := some (Value.TypeError "Bad arguments") } ∧
    Connection.Arguments._Cas IntegerValue c
        [Value.String key, Value.String value, Value.Undefined] a rc
      = (c._Cas key value (IntegerValue Value.Undefined % 2 ^ 64).toNat a rc).map undefined :=
  ⟨rfl, rfl⟩

/-- C9, the code at failing inputs: an `increment` that succeeds with new counter value
2^31 delivers the Integer -2147483648, and a `decrement` that succeeds with 2^32
delivers the Integer 0: the 64-bit value in the slot goes through `Integer::New`,
whose parameter is an `int32_t`. -/
theorem C9_counter_delivered_as_int32 (memcached_strerror : memcached_return_t → String) :
    ((one_server._Incr [107] 1 answers { rc := MEMCACHED_SUCCESS, value := 2147483648 }).bind
        (fun c => Connection.Event memcached_strerror c EV_WRITE)).map Prod.snd
      = some [{ symbol := Symbol.result_symbol, argv := [Value.Number (-2147483648)] },
              { symbol := Symbol.ready_symbol, argv := [] }] ∧
    ((one_server._Decr [107] 1 answers { rc := MEMCACHED_SUCCESS, value := 4294967296 }).bind
        (fun c => Connection.Event memcached_strerror c EV_WRITE)).map Prod.snd
      = some [{ symbol := Symbol.result_symbol, argv := [Value.Number 0] },
              { symbol := Symbol.ready_symbol, argv := [] }] :=
  ⟨rfl, rfl⟩

/-- C10, the code at a failing input: with a String pending (a `get` answered with a
buffer), a second `get` that fails with NULL keeps the tag String but overwrites
the stored pointer with NULL, because `_Get` assigns `mval_.u.c` before it tests
the result; the next report of write-readiness then hands NULL to `String::New`
and delivers nothing. -/
theorem C10_failed_get_over_pending_string :
    (one_server._Get [107] answers (get_response.value [118])).map (fun c => c.mval_)
      = some { type := mval_type.MVAL_STRING, u := mval_u.c (some [118]) } ∧
    ((one_server._Get [107] answers (get_response.value [118])).bind
        (fun c => c._Get [107] answers (get_response.null sample_failure))).map
        (fun c => (c.mval_, c.rc))
      = some ({ type := mval_type.MVAL_STRING, u := mval_u.c none }, sample_failure) ∧
    (((one_server._Get [107] answers (get_response.value [118])).bind
        (fun c => c._Get [107] answers (get_response.null sample_failure))).bind
        (fun c => Connection.Event sample_strerror c EV_WRITE))
      = none :=
  ⟨rfl, rfl, rfl⟩

end Memcache
